import Mathlib

/-!
# BeautyNow mobile client — verification of the service layer

Shallow embedding of the fetch-based service modules of the BeautyNow
mobile app (`app/services/apiClient.ts`, `authService.ts`,
`userProfileService.ts`, `salonProfileService.ts`, `salonServiceService`,
`filterService.ts`) and of the login/registration screen handlers
(`app/(auth)/login.tsx`, `app/(auth)/register.tsx`).

Modelling conventions:
* JSON values and JavaScript runtime values are modelled by `JSValue`;
  JavaScript truthiness is `JSValue.truthy`.
* `expo-secure-store` is modelled as a string-keyed association list
  `Store`; `setItemAsync` / `getItemAsync` / `deleteItemAsync` become
  `setItem` / `getItem` / `deleteItem`.
* A network round trip is modelled by passing the backend's `HttpResponse`
  as an explicit argument; each embedded operation additionally returns
  the list of `Request`s it issued, so "no network call is made" is the
  statement that this list is empty.  Multipart request bodies are not
  modelled field by field (no claim concerns them); a request records its
  method, path, whether it is multipart, and its Authorization header.
-/

namespace BeautyNow

/-- JSON / JavaScript runtime values. -/
inductive JSValue where
  | null
  | str (s : String)
  | num (n : Int)
  | bool (b : Bool)
  | obj (fields : List (String × JSValue))
  | arr (elems : List JSValue)

/-- First binding of a key in a field list. -/
def findField : List (String × JSValue) → String → Option JSValue
  | [], _ => none
  | p :: rest, k => if p.1 = k then some p.2 else findField rest k

/-- Replace the first binding of a key, appending when absent (JavaScript
property assignment on objects, which have unique keys). -/
def setField : List (String × JSValue) → String → JSValue →
    List (String × JSValue)
  | [], k, x => [(k, x)]
  | p :: rest, k, x =>
    if p.1 = k then (k, x) :: rest else p :: setField rest k x

/-- Remove the bindings of a key (JavaScript `delete` on objects, which
have unique keys). -/
def deleteField (f : List (String × JSValue)) (k : String) :
    List (String × JSValue) :=
  f.filter (fun p => p.1 ≠ k)

/-- Field lookup, `v.k` in JavaScript: `null` (undefined) when the field is
absent or the value is not an object. -/
def JSValue.get : JSValue → String → JSValue
  | .obj fields, k =>
    match findField fields k with
    | some x => x
    | none => .null
  | _, _ => .null

/-- JavaScript truthiness: `null`/`undefined`, `""`, `0` and `false` are
falsy; every object and array (including `[]` and `{}`) is truthy. -/
def JSValue.truthy : JSValue → Bool
  | .null => false
  | .str s => s ≠ ""
  | .num n => n ≠ 0
  | .bool b => b
  | .obj _ => true
  | .arr _ => true

/-- The string content of a value known to be a string (`""` otherwise);
used where the code hands a response field to `SecureStore.setItemAsync`,
which only accepts strings. -/
def JSValue.asString : JSValue → String
  | .str s => s
  | _ => ""

/-- `expo-secure-store`, modelled as persistent string-keyed storage. -/
def Store := List (String × String)

/-- `SecureStore.getItemAsync key`: the value of the first binding of the
key, `null` when absent. -/
def getItem : Store → String → Option String
  | [], _ => none
  | p :: rest, key => if p.1 = key then some p.2 else getItem rest key

/-- `SecureStore.deleteItemAsync key`: drop the bindings of the key. -/
def deleteItem : Store → String → Store
  | [], _ => []
  | p :: rest, key =>
    if p.1 = key then deleteItem rest key else p :: deleteItem rest key

/-- `SecureStore.setItemAsync key value`: overwrite the binding of the
key. -/
def setItem (s : Store) (key value : String) : Store :=
  (key, value) :: deleteItem s key

/-- Truthiness of a `string | null` JavaScript value (`!token`). -/
def strTruthy : Option String → Bool
  | none => false
  | some s => s ≠ ""

/-- A request issued through `fetch`: method, URL path, whether the body is
multipart `FormData`, and the token of the `Authorization: Bearer` header
when one is set. -/
structure Request where
  method : String
  path : String
  multipart : Bool
  auth : Option String
deriving DecidableEq, Repr

/-- A backend HTTP response, with its body already parsed from JSON
(`response.json()`). -/
structure HttpResponse where
  status : Nat
  statusText : String
  body : JSValue

/-- `response.ok`: status in the range 200–299. -/
def HttpResponse.ok (r : HttpResponse) : Bool :=
  decide (200 ≤ r.status) && decide (r.status ≤ 299)

/-- `apiClient.ts` `handleResponse`: return the parsed body on `ok`,
otherwise reject with `(data && data.message) || response.statusText`. -/
def handleResponse (r : HttpResponse) : Except JSValue JSValue :=
  if r.ok then .ok r.body
  else
    let e := if r.body.truthy then r.body.get "message" else r.body
    .error (if e.truthy then e else .str r.statusText)

/-! ## authService.ts -/

/-- `authService.ts` `TOKEN_KEY`. -/
def TOKEN_KEY : String := "userToken"

/-- The storage key used by `getUserType` / `setUserType`. -/
def USERTYPE_KEY : String := "userType"

/-- `authService.ts` `getToken`. -/
def getToken (s : Store) : Option String :=
  getItem s TOKEN_KEY

/-- `authService.ts` `isAuthenticated` (`!!token`). -/
def isAuthenticated (s : Store) : Bool :=
  strTruthy (getToken s)

/-- `authService.ts` `logout`: delete the token key; the function issues no
`fetch`, so its request list is empty. -/
def logout (s : Store) : Store × List Request :=
  (deleteItem s TOKEN_KEY, [])

/-- `authService.ts` `getUserType`. -/
def getUserType (s : Store) : Option String :=
  getItem s USERTYPE_KEY

/-- `authService.ts` `setUserType` (returns `true` on success; the
storage-error branch is an external failure not modelled here). -/
def setUserType (s : Store) (type : String) : Store × Bool :=
  (setItem s USERTYPE_KEY type, true)

/-- `authService.ts` `register`: salon registrations with a business
license upload send multipart `FormData`, everything else sends JSON; both
POST to `/auth/register` with no Authorization header and return
`handleResponse`. -/
def register (email password role : String) (businessLicense : Option String)
    (resp : HttpResponse) : Except JSValue JSValue × List Request :=
  let multipart := role = "salon" && strTruthy businessLicense
  let _ := email
  let _ := password
  (handleResponse resp,
   [{ method := "POST", path := "/auth/register", multipart := multipart,
      auth := none }])

/-- `authService.ts` `verifyOTP`: POST `/auth/verify-otp`; on a successful
response whose body has a truthy `token` field, store it under
`TOKEN_KEY`; return the body. -/
def verifyOTP (s : Store) (email otp role : String) (resp : HttpResponse) :
    Except JSValue JSValue × Store × List Request :=
  let _ := (email, otp, role)
  let req : Request :=
    { method := "POST", path := "/auth/verify-otp", multipart := false,
      auth := none }
  match handleResponse resp with
  | .error e => (.error e, s, [req])
  | .ok data =>
    let s' := if (data.get "token").truthy
              then setItem s TOKEN_KEY (data.get "token").asString
              else s
    (.ok data, s', [req])

/-- `authService.ts` `login`: POST `/auth/login`; on a successful response
whose body has a truthy `token` field, store it under `TOKEN_KEY`; return
the body.  (No role check happens here.) -/
def login (s : Store) (email password role : String) (resp : HttpResponse) :
    Except JSValue JSValue × Store × List Request :=
  let _ := (email, password, role)
  let req : Request :=
    { method := "POST", path := "/auth/login", multipart := false,
      auth := none }
  match handleResponse resp with
  | .error e => (.error e, s, [req])
  | .ok data =>
    let s' := if (data.get "token").truthy
              then setItem s TOKEN_KEY (data.get "token").asString
              else s
    (.ok data, s', [req])

/-! ## userProfileService.ts helpers -/

/-- `typeof v === 'object'` (true for objects, arrays and `null`). -/
def JSValue.typeofObject : JSValue → Bool
  | .obj _ => true
  | .arr _ => true
  | .null => true
  | _ => false

/-- `typeof v === 'string'`. -/
def JSValue.typeofString : JSValue → Bool
  | .str _ => true
  | _ => false

/-- JavaScript `a || b`. -/
def jsOr (a b : JSValue) : JSValue :=
  if a.truthy then a else b

/-- Field assignment `v.k = x`: replace the field in place when present,
append it when absent; a no-op on non-objects. -/
def JSValue.set : JSValue → String → JSValue → JSValue
  | .obj fields, k, x => .obj (setField fields k x)
  | v, _, _ => v

/-- Field removal `delete v.k`; a no-op on non-objects. -/
def JSValue.del : JSValue → String → JSValue
  | .obj fields, k => .obj (deleteField fields k)
  | v, _ => v

/-- Optional chaining `v?.k`: `undefined` when `v` is `null`/`undefined`,
plain field lookup otherwise. -/
def jsOptChain : JSValue → String → JSValue
  | .null, _ => .null
  | v, k => v.get k

/-- `userProfileService.ts` `getImageUri`: identity on truthy strings; on
objects the first truthy of `uri`, `url`, `source` (the `source` itself
when a string, else `source.uri`, else `''` — `path` is not consulted
then), `path`; `''` in every other case. -/
def getImageUri (image : JSValue) : JSValue :=
  if image.truthy = false then .str ""
  else if image.typeofString then image
  else if image.typeofObject then
    if (image.get "uri").truthy then image.get "uri"
    else if (image.get "url").truthy then image.get "url"
    else if (image.get "source").truthy then
      match image.get "source" with
      | .str s => .str s
      | src => if (src.get "uri").truthy then src.get "uri" else .str ""
    else if (image.get "path").truthy then image.get "path"
    else .str ""
  else .str ""

/-- The recurring normalization `x.uri || x.url || x.path || ''`. -/
def uriUrlPathOrEmpty (x : JSValue) : JSValue :=
  jsOr (x.get "uri") (jsOr (x.get "url") (jsOr (x.get "path") (.str "")))

/-! ## userProfileService.ts CRUD -/

/-- The local error thrown when no token is stored. -/
def notAuthenticated : JSValue := .str "Not authenticated"

/-- `userProfileService.ts` `createUserProfile`: requires a token, then
POSTs multipart form data to `/user-profile` with a bearer header. -/
def createUserProfile (s : Store) (fullName : String)
    (phone address faceImage : Option String) (resp : HttpResponse) :
    Except JSValue JSValue × List Request :=
  let _ := (fullName, phone, address, faceImage)
  let token := getToken s
  if strTruthy token = false then (.error notAuthenticated, [])
  else
    (handleResponse resp,
     [{ method := "POST", path := "/user-profile", multipart := true,
        auth := token }])

/-- `userProfileService.ts` `getUserProfile`: requires a token, GETs
`/user-profile` with a bearer header, and flattens an object-valued
`faceImage` field of the body to `uri || url || path || ''`. -/
def getUserProfile (s : Store) (resp : HttpResponse) :
    Except JSValue JSValue × List Request :=
  let token := getToken s
  if strTruthy token = false then (.error notAuthenticated, [])
  else
    let req : Request :=
      { method := "GET", path := "/user-profile", multipart := false,
        auth := token }
    match handleResponse resp with
    | .error e => (.error e, [req])
    | .ok data =>
      let fi := data.get "faceImage"
      let data' :=
        if data.truthy && fi.truthy && fi.typeofObject then
          data.set "faceImage" (uriUrlPathOrEmpty fi)
        else data
      (.ok data', [req])

/-- `userProfileService.ts` `updateUserProfile`: requires a token, then
PUTs multipart form data to `/user-profile` with a bearer header. -/
def updateUserProfile (s : Store)
    (fullName phone address faceImage : Option String)
    (resp : HttpResponse) : Except JSValue JSValue × List Request :=
  let _ := (fullName, phone, address, faceImage)
  let token := getToken s
  if strTruthy token = false then (.error notAuthenticated, [])
  else
    (handleResponse resp,
     [{ method := "PUT", path := "/user-profile", multipart := true,
        auth := token }])

/-- `userProfileService.ts` `deleteUserProfile`: requires a token, then
DELETEs `/user-profile` with a bearer header. -/
def deleteUserProfile (s : Store) (resp : HttpResponse) :
    Except JSValue JSValue × List Request :=
  let token := getToken s
  if strTruthy token = false then (.error notAuthenticated, [])
  else
    (handleResponse resp,
     [{ method := "DELETE", path := "/user-profile", multipart := false,
        auth := token }])

/-! ## salonProfileService.ts CRUD -/

/-- `salonProfileService.ts` `createSalonProfile`: requires a token, then
POSTs multipart form data to `/salon-profile` with a bearer header. -/
def createSalonProfile (s : Store) (name address phone : String)
    (description : Option String) (portfolioFiles : Option (List String))
    (resp : HttpResponse) : Except JSValue JSValue × List Request :=
  let _ := (name, address, phone, description, portfolioFiles)
  let token := getToken s
  if strTruthy token = false then (.error notAuthenticated, [])
  else
    (handleResponse resp,
     [{ method := "POST", path := "/salon-profile", multipart := true,
        auth := token }])

/-- The `getSalonProfile` portfolio normalization: strings kept as they
are, objects flattened to `uri || url || path || ''`, anything else
`''`; empty strings then dropped by `.filter(Boolean)`. -/
def normalizePortfolioItem (item : JSValue) : JSValue :=
  if item.typeofString then item
  else if item.typeofObject then uriUrlPathOrEmpty item
  else .str ""

/-- `salonProfileService.ts` `getSalonProfile`: requires a token, GETs
`/salon-profile` with a bearer header, and normalizes a truthy array
`portfolio` field item-wise, dropping falsy results; a truthy non-array
`portfolio` makes `data.portfolio.map` throw a `TypeError`, which the
function (having no catch) propagates. -/
def getSalonProfile (s : Store) (resp : HttpResponse) :
    Except JSValue JSValue × List Request :=
  let token := getToken s
  if strTruthy token = false then (.error notAuthenticated, [])
  else
    let req : Request :=
      { method := "GET", path := "/salon-profile", multipart := false,
        auth := token }
    match handleResponse resp with
    | .error e => (.error e, [req])
    | .ok data =>
      if data.truthy && (data.get "portfolio").truthy then
        match data.get "portfolio" with
        | .arr items =>
          (.ok (data.set "portfolio"
            (.arr ((items.map normalizePortfolioItem).filter
              (fun v => v.truthy)))), [req])
        | _ =>
          (.error (.str "TypeError: data.portfolio.map is not a function"),
           [req])
      else (.ok data, [req])

/-- `salonProfileService.ts` `updateSalonProfile`: requires a token, then
PUTs multipart form data to `/salon-profile` with a bearer header. -/
def updateSalonProfile (s : Store)
    (name address phone description : Option String)
    (portfolioFiles : Option (List String)) (resp : HttpResponse) :
    Except JSValue JSValue × List Request :=
  let _ := (name, address, phone, description, portfolioFiles)
  let token := getToken s
  if strTruthy token = false then (.error notAuthenticated, [])
  else
    (handleResponse resp,
     [{ method := "PUT", path := "/salon-profile", multipart := true,
        auth := token }])

/-- `salonProfileService.ts` `deleteSalonProfile`: requires a token, then
DELETEs `/salon-profile` with a bearer header. -/
def deleteSalonProfile (s : Store) (resp : HttpResponse) :
    Except JSValue JSValue × List Request :=
  let token := getToken s
  if strTruthy token = false then (.error notAuthenticated, [])
  else
    (handleResponse resp,
     [{ method := "DELETE", path := "/salon-profile", multipart := false,
        auth := token }])

/-! ## salon services CRUD (salonServiceService) -/

/-- `createSalonService`: requires a token, then POSTs multipart form data
to `/salon-profile/services` with a bearer header. -/
def createSalonService (s : Store) (name : String) (category : List String)
    (price duration : Int) (description illustrationImage : Option String)
    (resp : HttpResponse) : Except JSValue JSValue × List Request :=
  let _ := (name, category, price, duration, description, illustrationImage)
  let token := getToken s
  if strTruthy token = false then (.error notAuthenticated, [])
  else
    (handleResponse resp,
     [{ method := "POST", path := "/salon-profile/services",
        multipart := true, auth := token }])

/-- `getSalonServices`: requires a token, GETs `/salon-profile/services`
with a bearer header; when the body is an array, flattens each record's
object-valued `illustrationImage` to `uri || url || path || ''`. -/
def getSalonServices (s : Store) (resp : HttpResponse) :
    Except JSValue JSValue × List Request :=
  let token := getToken s
  if strTruthy token = false then (.error notAuthenticated, [])
  else
    let req : Request :=
      { method := "GET", path := "/salon-profile/services",
        multipart := false, auth := token }
    match handleResponse resp with
    | .error e => (.error e, [req])
    | .ok data =>
      match data with
      | .arr services =>
        (.ok (.arr (services.map (fun service =>
          let ii := service.get "illustrationImage"
          if ii.truthy && ii.typeofObject then
            service.set "illustrationImage" (uriUrlPathOrEmpty ii)
          else service))), [req])
      | _ => (.ok data, [req])

/-- `getSalonService`: requires a token, then GETs
`/salon-profile/services/:id` with a bearer header. -/
def getSalonService (s : Store) (serviceId : String) (resp : HttpResponse) :
    Except JSValue JSValue × List Request :=
  let token := getToken s
  if strTruthy token = false then (.error notAuthenticated, [])
  else
    (handleResponse resp,
     [{ method := "GET", path := "/salon-profile/services/" ++ serviceId,
        multipart := false, auth := token }])

/-- `updateSalonService`: requires a token, then PUTs multipart form data
to `/salon-profile/services/:id` with a bearer header. -/
def updateSalonService (s : Store) (serviceId : String)
    (name description : Option String) (price duration : Option Int)
    (category : Option (List String)) (illustrationImage : Option String)
    (resp : HttpResponse) : Except JSValue JSValue × List Request :=
  let _ := (name, description, price, duration, category, illustrationImage)
  let token := getToken s
  if strTruthy token = false then (.error notAuthenticated, [])
  else
    (handleResponse resp,
     [{ method := "PUT", path := "/salon-profile/services/" ++ serviceId,
        multipart := true, auth := token }])

/-- `deleteSalonService`: requires a token, then DELETEs
`/salon-profile/services/:id` with a bearer header. -/
def deleteSalonService (s : Store) (serviceId : String)
    (resp : HttpResponse) : Except JSValue JSValue × List Request :=
  let token := getToken s
  if strTruthy token = false then (.error notAuthenticated, [])
  else
    (handleResponse resp,
     [{ method := "DELETE", path := "/salon-profile/services/" ++ serviceId,
        multipart := false, auth := token }])

/-! ## filterService.ts -/

/-- `p?.map(img => getImageUri(img))`: `undefined` when the receiver is
`null`/`undefined`, the mapped array on arrays, and a thrown `TypeError`
on any other receiver (strings, numbers, booleans and plain objects have
no `.map` method). -/
def mapImagesOpt : JSValue → Except JSValue JSValue
  | .null => .ok .null
  | .arr items => .ok (.arr (items.map getImageUri))
  | _ => .error (.str "TypeError: portfolio.map is not a function")

/-- `Array.prototype.map` with a callback that may throw: elements are
processed left to right and the first thrown error aborts the whole
call. -/
def mapExcept (f : JSValue → Except JSValue JSValue) :
    List JSValue → Except JSValue (List JSValue)
  | [] => .ok []
  | x :: xs =>
    match f x with
    | .error e => .error e
    | .ok y =>
      match mapExcept f xs with
      | .error e => .error e
      | .ok ys => .ok (y :: ys)

/-- The per-record normalization body shared by `filterServices` and
`searchServices`: flatten a truthy `illustrationImage` through
`getImageUri`; when the raw `Salon` field is truthy, build the flat
`salon` object from it and its nested `SalonProfile`, then delete the raw
`Salon` field.  The `portfolio` entry evaluates
`profile?.portfolio?.map(...)`, whose `TypeError` on a truthy non-array
receiver propagates out of the record. -/
def normalizeServiceRecord (service : JSValue) : Except JSValue JSValue :=
  let service₁ :=
    if (service.get "illustrationImage").truthy then
      service.set "illustrationImage"
        (getImageUri (service.get "illustrationImage"))
    else service
  let salonRaw := service₁.get "Salon"
  if salonRaw.truthy then
    let profile := salonRaw.get "SalonProfile"
    match mapImagesOpt (jsOptChain profile "portfolio") with
    | .error e => .error e
    | .ok pm =>
      let flat : JSValue := .obj
        [("id", salonRaw.get "id"),
         ("name", jsOr (jsOptChain profile "name") (.str "")),
         ("address", jsOr (jsOptChain profile "address") (.str "")),
         ("phone", jsOptChain profile "phone"),
         ("description", jsOptChain profile "description"),
         ("portfolio", jsOr pm (.arr [])),
         ("rating", salonRaw.get "rating")]
      .ok ((service₁.set "salon" flat).del "Salon")
  else .ok service₁

/-- The whitespace class trimmed by `String.prototype.trim` (ASCII part;
the claims only involve ASCII whitespace). -/
def jsWhitespace (c : Char) : Bool :=
  c = ' ' || c = '\t' || c = '\n' || c = '\r' || c = '\x0b' || c = '\x0c'

/-- JavaScript `keyword.trim()`. -/
def jsTrim (s : String) : String :=
  ⟨((s.data.dropWhile jsWhitespace).reverse.dropWhile jsWhitespace).reverse⟩

/-- `filterService.ts` `searchServices`: an empty or whitespace-only
keyword short-circuits to `[]` with no request; otherwise POST
`/services/search` (bearer header only when a token is stored) and
normalize the returned records exactly as `filterServices` does. -/
def searchServices (s : Store) (keyword : String) (resp : HttpResponse) :
    Except JSValue JSValue × List Request :=
  if keyword = "" || jsTrim keyword = "" then (.ok (.arr []), [])
  else
    let token := getToken s
    let req : Request :=
      { method := "POST", path := "/services/search", multipart := false,
        auth := if strTruthy token then token else none }
    match handleResponse resp with
    | .error e => (.error e, [req])
    | .ok data =>
      if data.truthy && (data.get "services").truthy then
        match data.get "services" with
        | .arr services =>
          match mapExcept normalizeServiceRecord services with
          | .ok out => (.ok (.arr out), [req])
          | .error e => (.error e, [req])
        | _ =>
          (.error (.str "TypeError: data.services.map is not a function"),
           [req])
      else (.ok (.arr []), [req])

/-! ## Screen handlers: register.tsx and login.tsx -/

/-- JavaScript `haystack.includes(needle)` on strings. -/
def strIncludes (haystack needle : String) : Bool :=
  decide (needle.data <:+: haystack.data)

/-- String interpolation `${v}` of a JavaScript value (object/array cases
elided to fixed text; no claim depends on them). -/
def JSValue.templateString : JSValue → String
  | .null => "null"
  | .str s => s
  | .num n => toString n
  | .bool b => if b then "true" else "false"
  | .obj _ => "[object Object]"
  | .arr _ => ""

/-- Strict equality `v === s` against a string. -/
def jsStrictEqStr (v : JSValue) (s : String) : Bool :=
  match v with
  | .str t => t = s
  | _ => false

/-- Deterministic equivalent of the screens' email regex
`/^[^\s@]+@[^\s@]+\.[^\s@]+$/`: no whitespace anywhere, exactly one `@`
with a nonempty local part, and a dot in the domain with nonempty text on
both sides. -/
def emailRegexTest (s : String) : Bool :=
  let cs := s.data
  let a := cs.takeWhile (fun c => c ≠ '@')
  let rest := (cs.dropWhile (fun c => c ≠ '@')).drop 1
  cs.contains '@' && !a.isEmpty &&
  a.all (fun c => !jsWhitespace c) &&
  rest.all (fun c => !jsWhitespace c && c ≠ '@') &&
  ((rest.drop 1).dropLast.contains '.')

/-- `register.tsx` / `login.tsx` `validateEmail` (identical in both
screens): required, then regex-checked.  Returns the validity flag and the
error message written to `emailError`. -/
def validateEmail (email : String) : Bool × String :=
  if email = "" then (false, "Email is required")
  else if emailRegexTest email = false then
    (false, "Please enter a valid email address")
  else (true, "")

/-- `register.tsx` `validatePassword`: required, minimum six characters. -/
def validatePassword (password : String) : Bool × String :=
  if password = "" then (false, "Password is required")
  else if password.length < 6 then
    (false, "Password must be at least 6 characters long")
  else (true, "")

/-- `register.tsx` `validateConfirmPassword`. -/
def validateConfirmPassword (pwd confirmPwd : String) : Bool × String :=
  if pwd ≠ "" && confirmPwd ≠ "" && pwd ≠ confirmPwd then
    (false, "Passwords do not match")
  else (true, "")

/-- `register.tsx` `validateLicense`: a salon registration requires a
truthy business-license URI. -/
def validateLicense (isSalon : Bool) (businessLicense : Option String) :
    Bool × String :=
  if isSalon && !strTruthy businessLicense then
    (false, "Business license is required for salon registration")
  else (true, "")

/-- The register screen's error fields and the success alert it raises. -/
structure RegisterScreenState where
  emailError : String := ""
  passwordError : String := ""
  confirmPasswordError : String := ""
  licenseError : String := ""
  generalError : String := ""
  alertTitle : Option String := none
deriving DecidableEq, Repr

/-- `typeof error === 'string' ? error : error?.message || 'Registration
failed'`. -/
def registerErrMessage (e : JSValue) : String :=
  match e with
  | .str s => s
  | _ => if (e.get "message").truthy then (e.get "message").templateString
         else "Registration failed"

/-- The `catch` classifier of `register.tsx` `handleRegister`. -/
def classifyRegisterError (msg : String) : RegisterScreenState :=
  if strIncludes msg "already exists" || strIncludes msg "already in use" then
    { emailError := "An account with this email already exists" }
  else if strIncludes msg "network" || strIncludes msg "connection" then
    { generalError := "Network error. Please check your internet connection" }
  else if strIncludes msg "license" then
    { licenseError :=
        "There was a problem with your business license. Please try uploading again" }
  else if strIncludes msg "verification" || strIncludes msg "OTP" ||
      strIncludes msg "code" then
    { generalError := msg }
  else
    { generalError := msg }

/-- `register.tsx` `handleRegister`: run the four validators (each writes
its error field), return before any network call when one fails; otherwise
call `register` and either require a truthy `otpSent` in the response or
classify the failure. -/
def handleRegister (email password confirmPassword role : String)
    (businessLicense : Option String) (resp : HttpResponse) :
    RegisterScreenState × List Request :=
  let (emailOk, emailErr) := validateEmail email
  let (pwOk, pwErr) := validatePassword password
  let (cpOk, cpErr) := validateConfirmPassword password confirmPassword
  let isSalon := role = "salon"
  let (licOk, licErr) := validateLicense isSalon businessLicense
  if !(emailOk && pwOk && cpOk && licOk) then
    ({ emailError := emailErr, passwordError := pwErr,
       confirmPasswordError := cpErr, licenseError := licErr }, [])
  else
    let (result, reqs) := register email password role businessLicense resp
    match result with
    | .ok response =>
      if (response.get "otpSent").truthy = false then
        (classifyRegisterError
          "Verification code could not be sent. Please try again.", reqs)
      else if role = "salon" then
        ({ alertTitle := some "Registration Submitted" }, reqs)
      else
        ({ alertTitle := some "Registration Successful" }, reqs)
    | .error e => (classifyRegisterError (registerErrMessage e), reqs)

/-- The login screen's error fields and the route it navigates to. -/
structure LoginScreenState where
  emailError : String := ""
  passwordError : String := ""
  generalError : String := ""
  route : Option String := none
deriving DecidableEq, Repr

/-- `login.tsx` `validatePassword`: required only. -/
def loginValidatePassword (password : String) : Bool × String :=
  if password = "" then (false, "Password is required")
  else (true, "")

/-- `typeof error === 'string' ? error : error?.message || 'An error
occurred'`. -/
def loginErrMessage (e : JSValue) : String :=
  match e with
  | .str s => s
  | _ => if (e.get "message").truthy then (e.get "message").templateString
         else "An error occurred"

/-- The `catch` classifier of `login.tsx` `handleLogin`. -/
def classifyLoginError (msg : String) : LoginScreenState :=
  if strIncludes msg "user not found" || strIncludes msg "no user found" then
    { emailError := "No account found with this email" }
  else if strIncludes msg "incorrect password" ||
      strIncludes msg "wrong password" then
    { passwordError := "Incorrect password" }
  else if strIncludes msg "not verified" then
    { generalError :=
        "Account not verified. Please check your email for verification instructions." }
  else if strIncludes msg "wrong user type" ||
      strIncludes msg "registered as" then
    { generalError := msg }
  else if strIncludes msg "network" || strIncludes msg "connection" then
    { generalError := "Network error. Please check your internet connection." }
  else
    { generalError :=
        "Login failed. Please check your credentials and try again." }

/-- `login.tsx` `handleLogin`: validate inputs, call `login`, and on a
truthy token store the requested role with `setUserType`, then compare
`response.role || role` against the requested role, throwing the
role-mismatch message (classified into `generalError`) when they differ,
navigating by role otherwise. -/
def handleLogin (s : Store) (email password role : String)
    (resp : HttpResponse) : LoginScreenState × Store × List Request :=
  let (emailOk, emailErr) := validateEmail email
  let (pwOk, pwErr) := loginValidatePassword password
  if !(emailOk && pwOk) then
    ({ emailError := emailErr, passwordError := pwErr }, s, [])
  else
    match login s email password role resp with
    | (.ok response, s₁, reqs) =>
      if response.truthy && (response.get "token").truthy then
        let (s₂, _) := setUserType s₁ role
        let actualRole := jsOr (response.get "role") (.str role)
        if !jsStrictEqStr actualRole role then
          (classifyLoginError
            ("This account is registered as a " ++
             actualRole.templateString ++
             ". Please select the correct user type."), s₂, reqs)
        else if role = "consumer" then
          ({ route := some "/(consumerTabs)" }, s₂, reqs)
        else if role = "salon" then
          ({ route := some "/salonTabs" }, s₂, reqs)
        else
          (classifyLoginError "Unknown user type", s₂, reqs)
      else
        (classifyLoginError "Login failed. Please check your credentials.",
         s₁, reqs)
    | (.error e, s₁, reqs) =>
      (classifyLoginError (loginErrMessage e), s₁, reqs)

/-! ## Session-store traces (for the persistence round-trip) -/

/-- An operation against the secure store. -/
inductive StoreOp where
  | setOp (k v : String)
  | getOp (k : String)
  | delOp (k : String)
deriving DecidableEq, Repr

/-- Whether an operation only reads. -/
def StoreOp.isRead : StoreOp → Bool
  | .getOp _ => true
  | _ => false

/-- Effect of one operation on the store (reads leave it unchanged). -/
def applyOp (s : Store) : StoreOp → Store
  | .setOp k v => setItem s k v
  | .getOp _ => s
  | .delOp k => deleteItem s k

/-- Run a sequence of store operations. -/
def runOps (s : Store) (ops : List StoreOp) : Store :=
  ops.foldl applyOp s

/-- Whether an object value carries a field under the given key. -/
def JSValue.hasField : JSValue → String → Bool
  | .obj fields, k => (findField fields k).isSome
  | _, _ => false

/-- The first field among the given keys whose value is truthy. -/
def firstTruthyField (v : JSValue) : List String → Option JSValue
  | [] => none
  | k :: ks =>
    if (v.get k).truthy then some (v.get k) else firstTruthyField v ks

/-- Resolution of a truthy `source` property: the source itself when a
string, otherwise its `uri` when truthy, otherwise the empty string. -/
def resolveSource : JSValue → JSValue
  | .str s => .str s
  | v => if (v.get "uri").truthy then v.get "uri" else .str ""

/-- The amended specification of `getImageUri`: identity on strings, and
on objects the first truthy of `uri`, `url`, a resolved `source` (with no
fallback to `path` once `source` is truthy), and `path`; the empty string
in every other case. -/
def getImageUriSpec (image : JSValue) : JSValue :=
  match image with
  | .str s => .str s
  | .obj _ | .arr _ =>
    match firstTruthyField image ["uri", "url"] with
    | some v => v
    | none =>
      if (image.get "source").truthy then resolveSource (image.get "source")
      else
        match firstTruthyField image ["path"] with
        | some v => v
        | none => .str ""
  | _ => .str ""

/-! ## Basic store lemmas -/

theorem getItem_deleteItem_self (s : Store) (k : String) :
    getItem (deleteItem s k) k = none := by
  induction s with
  | nil => rfl
  | cons p rest ih =>
    by_cases hp : p.1 = k
    · simpa [deleteItem, hp] using ih
    · simpa [deleteItem, getItem, hp] using ih

theorem getItem_deleteItem_ne (s : Store) (k k' : String) (h : k' ≠ k) :
    getItem (deleteItem s k) k' = getItem s k' := by
  induction s with
  | nil => rfl
  | cons p rest ih =>
    by_cases hp : p.1 = k
    · simpa [deleteItem, getItem, hp, Ne.symm h] using ih
    · by_cases hp' : p.1 = k'
      · simp [deleteItem, getItem, hp, hp', h]
      · simpa [deleteItem, getItem, hp, hp'] using ih

theorem getItem_setItem_self (s : Store) (k v : String) :
    getItem (setItem s k v) k = some v := by
  simp [getItem, setItem]

theorem getItem_setItem_ne (s : Store) (k k' v : String) (h : k' ≠ k) :
    getItem (setItem s k v) k' = getItem s k' := by
  simp only [getItem, setItem, if_neg (Ne.symm h)]
  exact getItem_deleteItem_ne s k k' h

theorem runOps_reads (s : Store) (ops : List StoreOp)
    (h : ∀ op ∈ ops, op.isRead = true) : runOps s ops = s := by
  induction ops generalizing s with
  | nil => rfl
  | cons op rest ih =>
    have hop := h op (by simp)
    cases op with
    | getOp k =>
      simpa [runOps, List.foldl, applyOp] using
        ih s (fun o ho => h o (by simp [ho]))
    | setOp k v => simp [StoreOp.isRead] at hop
    | delOp k => simp [StoreOp.isRead] at hop

/-! ## Field-list lemmas -/

theorem findField_setField_self (f : List (String × JSValue)) (k : String)
    (x : JSValue) : findField (setField f k x) k = some x := by
  induction f with
  | nil => simp [setField, findField]
  | cons p rest ih =>
    by_cases hp : p.1 = k
    · simp [setField, findField, hp]
    · simp [setField, findField, hp, ih]

theorem findField_deleteField_self (f : List (String × JSValue))
    (k : String) : findField (deleteField f k) k = none := by
  induction f with
  | nil => rfl
  | cons p rest ih =>
    by_cases hp : p.1 = k
    · simpa [deleteField, List.filter, hp] using ih
    · simpa [deleteField, List.filter, findField, hp] using ih

theorem findField_deleteField_ne (f : List (String × JSValue))
    (k k' : String) (h : k' ≠ k) :
    findField (deleteField f k) k' = findField f k' := by
  induction f with
  | nil => rfl
  | cons p rest ih =>
    by_cases hp : p.1 = k
    · simpa [deleteField, List.filter, findField, hp, Ne.symm h] using ih
    · by_cases hp' : p.1 = k'
      · simp [deleteField, List.filter, findField, hp, hp', h]
      · simpa [deleteField, List.filter, findField, hp, hp'] using ih

theorem get_set_obj_self (f : List (String × JSValue)) (k : String)
    (x : JSValue) : ((JSValue.obj f).set k x).get k = x := by
  simp [JSValue.set, JSValue.get, findField_setField_self]

theorem get_del_obj_ne (f : List (String × JSValue)) (k k' : String)
    (h : k' ≠ k) :
    ((JSValue.obj f).del k).get k' = (JSValue.obj f).get k' := by
  simp [JSValue.del, JSValue.get, findField_deleteField_ne f k k' h]

theorem hasField_del_self (f : List (String × JSValue)) (k : String) :
    ((JSValue.obj f).del k).hasField k = false := by
  simp [JSValue.del, JSValue.hasField, findField_deleteField_self]

theorem jsTrim_eq_empty_iff (s : String) :
    jsTrim s = "" ↔ ∀ c ∈ s.data, jsWhitespace c = true := by
  unfold jsTrim
  constructor
  · intro h c hc
    have hnil :
        ((s.data.dropWhile jsWhitespace).reverse.dropWhile
          jsWhitespace).reverse = [] := by
      have := congrArg String.data h
      simpa using this
    rw [List.reverse_eq_nil_iff, List.dropWhile_eq_nil_iff] at hnil
    by_cases hd : c ∈ s.data.dropWhile jsWhitespace
    · exact hnil c (by simpa using hd)
    · have hsplit := List.takeWhile_append_dropWhile (p := jsWhitespace)
        (l := s.data)
      have hmem : c ∈ s.data.takeWhile jsWhitespace ++
          s.data.dropWhile jsWhitespace := by rw [hsplit]; exact hc
      rcases List.mem_append.mp hmem with h1 | h2
      · exact List.mem_takeWhile_imp h1
      · exact absurd h2 hd
  · intro h
    have h1 : s.data.dropWhile jsWhitespace = [] :=
      List.dropWhile_eq_nil_iff.mpr h
    simp [h1]

/-- Authentication gating of a service operation: with no truthy token
stored, the call returns the local `Not authenticated` error and issues no
request; with a stored token, it issues exactly one request whose
`Authorization` bearer header carries that token. -/
def authGated
    (op : Store → HttpResponse → Except JSValue JSValue × List Request) :
    Prop :=
  ∀ s resp,
    (strTruthy (getToken s) = false →
      op s resp = (.error notAuthenticated, [])) ∧
    (∀ t, getToken s = some t → t ≠ "" →
      ∃ req, (op s resp).2 = [req] ∧ req.auth = some t)

/-! ## Claim theorems -/

/-- C3 (counterexample): starting from a Session Store holding a token and
the role tag `"salon"`, `logout` leaves the `userType` value present — the
claim that both persisted values are absent after logout fails at this
state. -/
theorem logout_leaves_userType_present :
    getItem (logout [(TOKEN_KEY, "t"), (USERTYPE_KEY, "salon")]).1
      USERTYPE_KEY = some "salon" ∧
    (some "salon" : Option String) ≠ none := by
  exact ⟨rfl, by decide⟩

/-- C3 (amended): for every starting state of the Session Store, after
`logout` the persisted token (key `userToken`) is absent and `logout`
performs no backend call; the role tag (key `userType`) is left exactly as
it was, not cleared. -/
theorem logout_clears_token_only (s : Store) :
    getItem (logout s).1 TOKEN_KEY = none ∧
    (logout s).2 = [] ∧
    getItem (logout s).1 USERTYPE_KEY = getItem s USERTYPE_KEY := by
  refine ⟨getItem_deleteItem_self s TOKEN_KEY, rfl, ?_⟩
  exact getItem_deleteItem_ne s TOKEN_KEY USERTYPE_KEY (by decide)

/-- C7: after `SecureStore` saves a token value (and, respectively,
`setUserType` saves a role tag), every subsequent sequence of read
operations leaves the store unchanged, so `getToken` (resp. `getUserType`)
returns exactly the saved value — until `deleteItemAsync` clears the key,
after which `getToken` returns `null`. -/
theorem sessionStore_save_load_roundtrip (s : Store) (v r : String)
    (ops : List StoreOp) (h : ∀ op ∈ ops, op.isRead = true) :
    getToken (runOps (setItem s TOKEN_KEY v) ops) = some v ∧
    getUserType (runOps (setUserType s r).1 ops) = some r ∧
    getToken (deleteItem (runOps (setItem s TOKEN_KEY v) ops) TOKEN_KEY) =
      none := by
  rw [runOps_reads _ _ h, runOps_reads _ _ h]
  refine ⟨getItem_setItem_self s TOKEN_KEY v, ?_, ?_⟩
  · exact getItem_setItem_self s USERTYPE_KEY r
  · exact getItem_deleteItem_self _ TOKEN_KEY

/-- C7 (witness): the round-trip theorem applied at a concrete store, a
concrete token and role, and a concrete read-only trace. -/
theorem sessionStore_save_load_roundtrip_witness :
    getToken (runOps (setItem [("k", "x")] TOKEN_KEY "tok")
      [StoreOp.getOp "k", StoreOp.getOp TOKEN_KEY]) = some "tok" ∧
    getUserType (runOps (setUserType [("k", "x")] "salon").1
      [StoreOp.getOp "k", StoreOp.getOp TOKEN_KEY]) = some "salon" ∧
    getToken (deleteItem (runOps (setItem [("k", "x")] TOKEN_KEY "tok")
      [StoreOp.getOp "k", StoreOp.getOp TOKEN_KEY]) TOKEN_KEY) = none :=
  sessionStore_save_load_roundtrip [("k", "x")] "tok" "salon"
    [StoreOp.getOp "k", StoreOp.getOp TOKEN_KEY] (by decide)

/-- C1: at the failing input — requested role `"consumer"`, backend
answering 200 with `{token: "t", role: "salon"}`, empty Session Store —
the login flow does fail with the role-mismatch error, but only after
writing both the token (`userToken = "t"`) and the requested role
(`userType = "consumer"`) to the Session Store, which the claim (and the
spec) forbid: the store was empty before the call and is not afterwards. -/
theorem handleLogin_roleMismatch_writes_sessionStore :
    (handleLogin [] "a@b.c" "pw" "consumer"
        ⟨200, "OK", .obj [("token", .str "t"),
          ("role", .str "salon")]⟩).1.generalError =
      "This account is registered as a salon. Please select the correct user type." ∧
    (handleLogin [] "a@b.c" "pw" "consumer"
        ⟨200, "OK", .obj [("token", .str "t"),
          ("role", .str "salon")]⟩).1.route = none ∧
    getItem (handleLogin [] "a@b.c" "pw" "consumer"
        ⟨200, "OK", .obj [("token", .str "t"),
          ("role", .str "salon")]⟩).2.1 TOKEN_KEY = some "t" ∧
    getItem (handleLogin [] "a@b.c" "pw" "consumer"
        ⟨200, "OK", .obj [("token", .str "t"),
          ("role", .str "salon")]⟩).2.1 USERTYPE_KEY = some "consumer" ∧
    getItem ([] : Store) TOKEN_KEY = none ∧
    getItem ([] : Store) USERTYPE_KEY = none := by
  set_option maxRecDepth 4000 in
  refine ⟨rfl, rfl, rfl, rfl, rfl, rfl⟩

/-- C2: a registration request with role `"salon"` and no attached
business-license file fails the license validation: the screen reports
`licenseError` and no network request is issued, whatever the other form
fields and whatever the backend would have answered. -/
theorem handleRegister_salon_missing_license_no_request
    (email password confirmPassword : String) (resp : HttpResponse) :
    (handleRegister email password confirmPassword "salon" none resp).2 =
      [] ∧
    (handleRegister email password confirmPassword "salon" none
        resp).1.licenseError =
      "Business license is required for salon registration" := by
  rcases h1 : validateEmail email with ⟨eOk, eErr⟩
  rcases h2 : validatePassword password with ⟨pOk, pErr⟩
  rcases h3 : validateConfirmPassword password confirmPassword with
    ⟨cOk, cErr⟩
  simp [handleRegister, h1, h2, h3, validateLicense, strTruthy]

/-- C8 (counterexample): on a 404 response whose body carries the
`message` field with value `""`, `handleResponse` rejects with the
`statusText` `"Not Found"`, not with the present-but-empty `message`
field, so rejection is decided by truthiness rather than presence. -/
theorem handleResponse_empty_message_uses_statusText :
    handleResponse ⟨404, "Not Found", .obj [("message", .str "")]⟩ =
      .error (.str "Not Found") ∧
    ("Not Found" : String) ≠ "" :=
  ⟨rfl, by decide⟩

/-- C8 (amended): `handleResponse` returns the parsed JSON body when the
status is 2xx; otherwise it rejects with the body's `message` field when
the body and that field are truthy (in particular non-empty), and with the
response's `statusText` when the body is falsy or the `message` field is
absent, empty or otherwise falsy. -/
theorem handleResponse_classifies (r : HttpResponse) :
    (200 ≤ r.status → r.status ≤ 299 → handleResponse r = .ok r.body) ∧
    (r.status < 200 ∨ 299 < r.status →
      ((r.body.truthy = true ∧ (r.body.get "message").truthy = true →
         handleResponse r = .error (r.body.get "message")) ∧
       (r.body.truthy = false →
         handleResponse r = .error (.str r.statusText)) ∧
       ((r.body.get "message").truthy = false →
         handleResponse r = .error (.str r.statusText)))) := by
  constructor
  · intro h1 h2
    simp [handleResponse, HttpResponse.ok, h1, h2]
  · intro h
    have hok : r.ok = false := by
      rcases h with h | h <;> simp [HttpResponse.ok] <;> omega
    refine ⟨?_, ?_, ?_⟩
    · rintro ⟨hb, hm⟩
      simp [handleResponse, hok, hb, hm]
    · intro hb
      simp [handleResponse, hok, hb]
    · intro hm
      by_cases hb : r.body.truthy
      · simp [handleResponse, hok, hb, hm]
      · simp [handleResponse, hok, hb]

/-- C8 (witness): the classification theorem applied to four concrete
responses, one per branch. -/
theorem handleResponse_classifies_witness :
    handleResponse ⟨200, "OK", .str "payload"⟩ = .ok (.str "payload") ∧
    handleResponse ⟨500, "ISE", .obj [("message", .str "boom")]⟩ =
      .error (.str "boom") ∧
    handleResponse ⟨500, "ISE", .null⟩ = .error (.str "ISE") ∧
    handleResponse ⟨500, "ISE", .obj []⟩ = .error (.str "ISE") :=
  ⟨(handleResponse_classifies ⟨200, "OK", .str "payload"⟩).1
      (by decide) (by decide),
   ((handleResponse_classifies ⟨500, "ISE",
        .obj [("message", .str "boom")]⟩).2 (Or.inr (by decide))).1
      ⟨by decide, by decide⟩,
   ((handleResponse_classifies ⟨500, "ISE", .null⟩).2
      (Or.inr (by decide))).2.1 (by decide),
   ((handleResponse_classifies ⟨500, "ISE", .obj []⟩).2
      (Or.inr (by decide))).2.2 (by decide)⟩

/-- C4: a keyword that is empty or consists only of whitespace makes
`searchServices` return the empty array with no network request; any other
keyword issues exactly one request, a POST to the `/services/search`
endpoint. -/
theorem searchServices_blank_shortcircuits (s : Store) (keyword : String)
    (resp : HttpResponse) :
    ((∀ c ∈ keyword.data, jsWhitespace c = true) →
      searchServices s keyword resp = (.ok (.arr []), [])) ∧
    ((¬ ∀ c ∈ keyword.data, jsWhitespace c = true) →
      (searchServices s keyword resp).2 =
        [{ method := "POST", path := "/services/search", multipart := false,
           auth := if strTruthy (getToken s) then getToken s else none }]) := by
  constructor
  · intro h
    have ht : jsTrim keyword = "" := (jsTrim_eq_empty_iff keyword).mpr h
    simp [searchServices, ht]
  · intro h
    have ht : jsTrim keyword ≠ "" := fun he =>
      h ((jsTrim_eq_empty_iff keyword).mp he)
    have hk : keyword ≠ "" := by
      intro he
      exact h (by intro c hc; rw [he] at hc; simp at hc)
    unfold searchServices
    simp only [hk, ht, decide_False]
    cases hhr : handleResponse resp with
    | error e => simp [hhr]
    | ok data =>
      simp only [hhr]
      by_cases hd : (data.truthy && (data.get "services").truthy) = true
      · simp only [hd, if_true]
        cases hsv : data.get "services" with
        | arr services =>
          cases hm : mapExcept normalizeServiceRecord services <;> simp [hm]
        | null => simp
        | str a => simp
        | num a => simp
        | bool a => simp
        | obj a => simp
      · simp only [hd]
        simp

/-- C4 (witness): the short-circuit theorem applied at the whitespace-only
keyword `"   "` and at the keyword `"hi"`. -/
theorem searchServices_blank_shortcircuits_witness :
    searchServices [] "   " ⟨200, "OK", .null⟩ = (.ok (.arr []), []) ∧
    (searchServices [("userToken", "t")] "hi" ⟨200, "OK", .null⟩).2 =
      [{ method := "POST", path := "/services/search", multipart := false,
         auth := some "t" }] :=
  ⟨(searchServices_blank_shortcircuits [] "   " ⟨200, "OK", .null⟩).1
      (by decide),
   (searchServices_blank_shortcircuits [("userToken", "t")] "hi"
      ⟨200, "OK", .null⟩).2 (by decide)⟩

/-- C9: when the backend response parses successfully but its body has no
truthy `token` field, both `verifyOTP` and `login` return the body and
leave the Session Store untouched (each still issues its single POST); and
when `handleResponse` rejects, neither writes to the store. -/
theorem token_written_only_when_truthy (s : Store)
    (email otp password role : String) (resp : HttpResponse) :
    (∀ data, handleResponse resp = .ok data →
      (data.get "token").truthy = false →
      verifyOTP s email otp role resp = (.ok data, s,
        [{ method := "POST", path := "/auth/verify-otp",
           multipart := false, auth := none }]) ∧
      login s email password role resp = (.ok data, s,
        [{ method := "POST", path := "/auth/login",
           multipart := false, auth := none }])) ∧
    (∀ e, handleResponse resp = .error e →
      (verifyOTP s email otp role resp).2.1 = s ∧
      (login s email password role resp).2.1 = s) := by
  constructor
  · intro data h ht
    constructor
    · simp [verifyOTP, h, ht]
    · simp [login, h, ht]
  · intro e h
    constructor
    · simp [verifyOTP, h]
    · simp [login, h]

/-- C9 (witness): the frame theorem applied at the empty store and a 200
response whose body `{registered: true}` has no token field. -/
theorem token_written_only_when_truthy_witness :
    verifyOTP [] "e@x.y" "123456" "consumer"
        ⟨200, "OK", .obj [("registered", .bool true)]⟩ =
      (.ok (.obj [("registered", .bool true)]), [],
       [{ method := "POST", path := "/auth/verify-otp", multipart := false,
          auth := none }]) ∧
    login [] "e@x.y" "123456" "consumer"
        ⟨200, "OK", .obj [("registered", .bool true)]⟩ =
      (.ok (.obj [("registered", .bool true)]), [],
       [{ method := "POST", path := "/auth/login", multipart := false,
          auth := none }]) :=
  (token_written_only_when_truthy [] "e@x.y" "123456" "123456" "consumer"
      ⟨200, "OK", .obj [("registered", .bool true)]⟩).1
    (.obj [("registered", .bool true)]) rfl (by decide)

/-- C5: every profile-service operation — create/get/update/delete of the
consumer profile, of the salon profile, and of salon services — is
authentication-gated: with no token stored it throws `Not authenticated`
locally and issues no request; with a token stored it issues exactly one
request carrying the token in its `Authorization` bearer header. -/
theorem profileServices_require_token :
    (∀ n p a f, authGated (fun s r => createUserProfile s n p a f r)) ∧
    authGated getUserProfile ∧
    (∀ n p a f, authGated (fun s r => updateUserProfile s n p a f r)) ∧
    authGated deleteUserProfile ∧
    (∀ n a p d pf, authGated (fun s r => createSalonProfile s n a p d pf r)) ∧
    authGated getSalonProfile ∧
    (∀ n a p d pf, authGated (fun s r => updateSalonProfile s n a p d pf r)) ∧
    authGated deleteSalonProfile ∧
    (∀ n c pr du de ii,
      authGated (fun s r => createSalonService s n c pr du de ii r)) ∧
    authGated getSalonServices ∧
    (∀ sid, authGated (fun s r => getSalonService s sid r)) ∧
    (∀ sid n de pr du c ii,
      authGated (fun s r => updateSalonService s sid n de pr du c ii r)) ∧
    (∀ sid, authGated (fun s r => deleteSalonService s sid r)) := by
  refine ⟨?_, ?_, ?_, ?_, ?_, ?_, ?_, ?_, ?_, ?_, ?_, ?_, ?_⟩
  · intro n p a f s resp
    refine ⟨fun h => by simp [createUserProfile, h], fun t ht hne => ?_⟩
    have hst : strTruthy (getToken s) = true := by simp [strTruthy, ht, hne]
    exact ⟨{ method := "POST", path := "/user-profile", multipart := true,
             auth := getToken s },
           by simp [createUserProfile, hst], by simp [ht]⟩
  · intro s resp
    refine ⟨fun h => by simp [getUserProfile, h], fun t ht hne => ?_⟩
    have hst : strTruthy (getToken s) = true := by simp [strTruthy, ht, hne]
    refine ⟨{ method := "GET", path := "/user-profile", multipart := false,
              auth := getToken s }, ?_, by simp [ht]⟩
    cases hhr : handleResponse resp <;> simp [getUserProfile, hst, hhr]
  · intro n p a f s resp
    refine ⟨fun h => by simp [updateUserProfile, h], fun t ht hne => ?_⟩
    have hst : strTruthy (getToken s) = true := by simp [strTruthy, ht, hne]
    exact ⟨{ method := "PUT", path := "/user-profile", multipart := true,
             auth := getToken s },
           by simp [updateUserProfile, hst], by simp [ht]⟩
  · intro s resp
    refine ⟨fun h => by simp [deleteUserProfile, h], fun t ht hne => ?_⟩
    have hst : strTruthy (getToken s) = true := by simp [strTruthy, ht, hne]
    exact ⟨{ method := "DELETE", path := "/user-profile", multipart := false,
             auth := getToken s },
           by simp [deleteUserProfile, hst], by simp [ht]⟩
  · intro n a p d pf s resp
    refine ⟨fun h => by simp [createSalonProfile, h], fun t ht hne => ?_⟩
    have hst : strTruthy (getToken s) = true := by simp [strTruthy, ht, hne]
    exact ⟨{ method := "POST", path := "/salon-profile", multipart := true,
             auth := getToken s },
           by simp [createSalonProfile, hst], by simp [ht]⟩
  · intro s resp
    refine ⟨fun h => by simp [getSalonProfile, h], fun t ht hne => ?_⟩
    have hst : strTruthy (getToken s) = true := by simp [strTruthy, ht, hne]
    refine ⟨{ method := "GET", path := "/salon-profile", multipart := false,
              auth := getToken s }, ?_, by simp [ht]⟩
    cases hhr : handleResponse resp with
    | error e => simp [getSalonProfile, hst, hhr]
    | ok data =>
      by_cases hd : (data.truthy && (data.get "portfolio").truthy) = true
      · cases hp : data.get "portfolio" <;>
          simp [getSalonProfile, hst, hhr, hd, hp] <;> split <;> rfl
      · simp [getSalonProfile, hst, hhr, hd]
  · intro n a p d pf s resp
    refine ⟨fun h => by simp [updateSalonProfile, h], fun t ht hne => ?_⟩
    have hst : strTruthy (getToken s) = true := by simp [strTruthy, ht, hne]
    exact ⟨{ method := "PUT", path := "/salon-profile", multipart := true,
             auth := getToken s },
           by simp [updateSalonProfile, hst], by simp [ht]⟩
  · intro s resp
    refine ⟨fun h => by simp [deleteSalonProfile, h], fun t ht hne => ?_⟩
    have hst : strTruthy (getToken s) = true := by simp [strTruthy, ht, hne]
    exact ⟨{ method := "DELETE", path := "/salon-profile",
             multipart := false, auth := getToken s },
           by simp [deleteSalonProfile, hst], by simp [ht]⟩
  · intro n c pr du de ii s resp
    refine ⟨fun h => by simp [createSalonService, h], fun t ht hne => ?_⟩
    have hst : strTruthy (getToken s) = true := by simp [strTruthy, ht, hne]
    exact ⟨{ method := "POST", path := "/salon-profile/services",
             multipart := true, auth := getToken s },
           by simp [createSalonService, hst], by simp [ht]⟩
  · intro s resp
    refine ⟨fun h => by simp [getSalonServices, h], fun t ht hne => ?_⟩
    have hst : strTruthy (getToken s) = true := by simp [strTruthy, ht, hne]
    refine ⟨{ method := "GET", path := "/salon-profile/services",
              multipart := false, auth := getToken s }, ?_, by simp [ht]⟩
    cases hhr : handleResponse resp with
    | error e => simp [getSalonServices, hst, hhr]
    | ok data => cases data <;> simp [getSalonServices, hst, hhr]
  · intro sid s resp
    refine ⟨fun h => by simp [getSalonService, h], fun t ht hne => ?_⟩
    have hst : strTruthy (getToken s) = true := by simp [strTruthy, ht, hne]
    exact ⟨{ method := "GET", path := "/salon-profile/services/" ++ sid,
             multipart := false, auth := getToken s },
           by simp [getSalonService, hst], by simp [ht]⟩
  · intro sid n de pr du c ii s resp
    refine ⟨fun h => by simp [updateSalonService, h], fun t ht hne => ?_⟩
    have hst : strTruthy (getToken s) = true := by simp [strTruthy, ht, hne]
    exact ⟨{ method := "PUT", path := "/salon-profile/services/" ++ sid,
             multipart := true, auth := getToken s },
           by simp [updateSalonService, hst], by simp [ht]⟩
  · intro sid s resp
    refine ⟨fun h => by simp [deleteSalonService, h], fun t ht hne => ?_⟩
    have hst : strTruthy (getToken s) = true := by simp [strTruthy, ht, hne]
    exact ⟨{ method := "DELETE", path := "/salon-profile/services/" ++ sid,
             multipart := false, auth := getToken s },
           by simp [deleteSalonService, hst], by simp [ht]⟩

/-- C5 (witness): the gating theorem applied to `getUserProfile` at the
empty store (local `Not authenticated`, no request) and at a store holding
the token `"t"` (one request with bearer `"t"`). -/
theorem profileServices_require_token_witness :
    getUserProfile [] ⟨200, "OK", .null⟩ = (.error notAuthenticated, []) ∧
    ∃ req, (getUserProfile [("userToken", "t")] ⟨200, "OK", .null⟩).2 =
      [req] ∧ req.auth = some "t" :=
  ⟨(profileServices_require_token.2.1 [] ⟨200, "OK", .null⟩).1 rfl,
   (profileServices_require_token.2.1 [("userToken", "t")]
      ⟨200, "OK", .null⟩).2 "t" rfl (by decide)⟩

/-- C10 (counterexample): `getImageUri` selects by truthiness, not by
presence, and returns property values as they are.  With `uri` present but
empty, it returns `url`'s value `"x"` instead of the present `uri` value
`""`; with a truthy object `source` lacking `uri` and a present `path`, it
returns `""` without consulting `path`; and with a numeric `uri` it
returns the number, not a string. -/
theorem getImageUri_truthiness_counterexample :
    getImageUri (.obj [("uri", .str ""), ("url", .str "x")]) = .str "x" ∧
    ("x" : String) ≠ "" ∧
    getImageUri (.obj [("source", .obj [("width", .num 1)]),
      ("path", .str "p")]) = .str "" ∧
    ("p" : String) ≠ "" ∧
    getImageUri (.obj [("uri", .num 5)]) = .num 5 ∧
    (JSValue.num 5).typeofString = false :=
  ⟨rfl, by decide, rfl, by decide, rfl, rfl⟩

/-- C10 (amended): `getImageUri` is total, the identity on strings, `""`
on `null`/`undefined` and on non-string non-object values, and on objects
returns the first truthy of the `uri`, `url`, `source` (the `source`
itself when a string, else its truthy `uri`, else `""`, with no fallback
to `path`), and `path` properties — the empty string when none is truthy;
property values are returned unchanged, so the result is a string whenever
the selected property is one. -/
theorem getImageUri_characterization :
    (∀ s : String, getImageUri (.str s) = .str s) ∧
    getImageUri .null = .str "" ∧
    (∀ v : JSValue, getImageUri v = getImageUriSpec v) := by
  have hobjarr : ∀ v : JSValue, v.truthy = true → v.typeofString = false →
      v.typeofObject = true → getImageUri v = getImageUriSpec v := by
    intro v hv hs ho
    have hspec : getImageUriSpec v =
        match firstTruthyField v ["uri", "url"] with
        | some x => x
        | none =>
          if (v.get "source").truthy then resolveSource (v.get "source")
          else
            match firstTruthyField v ["path"] with
            | some x => x
            | none => .str "" := by
      cases v <;> simp_all [JSValue.truthy, JSValue.typeofString,
        JSValue.typeofObject, getImageUriSpec]
    rw [hspec, getImageUri, if_neg (by simp [hv]), if_neg (by simp [hs]),
      if_pos ho]
    by_cases h1 : (v.get "uri").truthy
    · simp [firstTruthyField, h1]
    · by_cases h2 : (v.get "url").truthy
      · simp [firstTruthyField, h1, h2]
      · by_cases h3 : (v.get "source").truthy
        · simp only [firstTruthyField, h1, h2, h3, if_false, if_true,
            Bool.false_eq_true, if_neg, if_pos]
          cases hsv : v.get "source" <;> simp [resolveSource]
        · by_cases h4 : (v.get "path").truthy <;>
            simp [firstTruthyField, h1, h2, h3, h4]
  refine ⟨?_, rfl, ?_⟩
  · intro s
    by_cases hs : s = "" <;>
      simp [getImageUri, JSValue.truthy, JSValue.typeofString, hs]
  · intro v
    cases v with
    | null => rfl
    | str s =>
      by_cases hs : s = "" <;>
        simp [getImageUri, getImageUriSpec, JSValue.truthy,
          JSValue.typeofString, hs]
    | num n =>
      by_cases hn : n = 0 <;>
        simp [getImageUri, getImageUriSpec, JSValue.truthy,
          JSValue.typeofString, JSValue.typeofObject, hn]
    | bool b => cases b <;> rfl
    | obj f => exact hobjarr _ rfl rfl rfl
    | arr l => exact hobjarr _ rfl rfl rfl

end BeautyNow
